import Mathlib

/-!
Verification development for the MediaPilot Telegram bot (`app/bot.py`).

The file shallowly embeds the bot's stateless callback workflow: the
search-result renderer, the pipe-delimited action-token handling, the
quality-profile selection step, the two terminal add transitions
(movie with chosen quality profile, series with defaults), and the
error-message construction of the Radarr/Sonarr HTTP wrappers.

Backend behaviour (what the Radarr/Sonarr HTTP endpoints answer) is
abstracted as an environment record of responses; each handler is a
pure function from the environment and the incoming callback-data
string to an outcome: either it finishes with a list of observable
effects (API calls issued, chat messages edited or sent), or a Python
exception escapes the handler uncaught.
-/

namespace MediaPilot

/-! ## Python string semantics helpers -/

/-- Is `pat` a prefix of `l`?  (Char-list level, structural.) -/
def pfxOf : List Char → List Char → Bool
  | [], _ => true
  | _ :: _, [] => false
  | a :: s, b :: t => a == b && pfxOf s t

/-- Does `l` contain `pat` as a contiguous sublist? -/
def subOf (pat : List Char) : List Char → Bool
  | [] => pfxOf pat []
  | c :: t => pfxOf pat (c :: t) || subOf pat t

/-- Python's `pat in hay` on strings: contiguous-substring test. -/
def pyIn (pat hay : String) : Bool :=
  subOf pat.data hay.data

/-- Core of Python's `str.split(sep)` for a one-character separator,
on char lists.  `"".split(sep) = [""]`; separators at the ends yield
empty fields, as in Python. -/
def pySplitCore (sep : Char) : List Char → List (List Char)
  | [] => [[]]
  | c :: t =>
    if c == sep then [] :: pySplitCore sep t
    else
      match pySplitCore sep t with
      | h :: r => (c :: h) :: r
      | [] => [[c]]

/-- Python's `s.split(sep)` for a one-character separator. -/
def pySplit (s : String) (sep : Char) : List String :=
  (pySplitCore sep s.data).map fun l => String.mk l

/-- Decimal digit value of a character, `none` for a non-digit. -/
def digitVal (c : Char) : Option Nat :=
  if c.isDigit then some (c.toNat - 48) else none

/-- Accumulating decimal reader: `none` as soon as a non-digit appears. -/
def natOfDigitsAux : List Char → Nat → Option Nat
  | [], acc => some acc
  | c :: t, acc =>
    match digitVal c with
    | none => none
    | some d => natOfDigitsAux t (acc * 10 + d)

/-- A non-empty all-digit char list read as a decimal `Nat`. -/
def natOfDigits : List Char → Option Nat
  | [] => none
  | c :: t => natOfDigitsAux (c :: t) 0

/-- Model of Python's `int(s)` on plain decimal strings: optional
sign, then at least one decimal digit; anything else raises
`ValueError`, modelled as `none`.  (Whitespace trimming and numeric
underscores, which Python also accepts, are not used by this bot's
tokens and are not modelled.) -/
def pyInt? (s : String) : Option Int :=
  match s.data with
  | [] => none
  | c :: t =>
    if c == '-' then (natOfDigits t).map fun n => -(n : Int)
    else if c == '+' then (natOfDigits t).map fun n => (n : Int)
    else (natOfDigits (c :: t)).map fun n => (n : Int)

/-! ## Data model (from `app/bot.py`)

JSON payloads that the code only passes through unmodified
(`images`, `seasons`) are kept as opaque strings. -/

/-- Opaque JSON payload passed through to the add call unmodified. -/
abbrev Opaque := String

/-- One element of a Radarr `movie/lookup` response, restricted to the
fields `search_command` / `add_movie_with_quality_handler` read:
`title`, `year`, `tmdbId` (0 when absent), the internal `id` (0 when
absent, i.e. not yet in the library) and the pass-through `images`. -/
structure MovieResult where
  title : String
  year : Int
  tmdbId : Nat
  movieId : Nat
  images : Opaque
  deriving Repr, DecidableEq

/-- One element of a Sonarr `series/lookup` response, restricted to
the fields the handlers read. -/
structure SeriesResult where
  title : String
  year : Int
  tvdbId : Nat
  seriesId : Nat
  images : Opaque
  seasons : Opaque
  deriving Repr, DecidableEq

/-- One element of a `qualityprofile` response: `id` and `name`. -/
structure QualityProfile where
  id : Int
  name : String
  deriving Repr, DecidableEq

/-- One element of a `rootfolder` response: the `path` field. -/
structure RootFolder where
  path : String
  deriving Repr, DecidableEq

/-- An inline keyboard button: visible label and callback-data token. -/
structure Button where
  text : String
  callback_data : String
  deriving Repr, DecidableEq

/-- The JSON body POSTed to Radarr `movie`, field for field as built
in `add_movie_with_quality_handler` (the `addOptions` sub-object is
flattened into its single `searchForMovie` flag). -/
structure MovieAddPayload where
  title : String
  tmdbId : Nat
  year : Int
  qualityProfileId : Int
  rootFolderPath : String
  images : Opaque
  searchForMovie : Bool
  deriving Repr, DecidableEq

/-- The JSON body POSTed to Sonarr `series`, field for field as built
in `add_series_button_handler` (the `addOptions` sub-object is
flattened into its three flags). -/
structure SeriesAddPayload where
  title : String
  tvdbId : Nat
  year : Int
  qualityProfileId : Int
  rootFolderPath : String
  images : Opaque
  seasons : Opaque
  ignoreEpisodesWithFiles : Bool
  ignoreEpisodesWithoutFiles : Bool
  searchForMissingEpisodes : Bool
  deriving Repr, DecidableEq

/-- Observable effects of a handler run, in program order: backend
API calls and chat messages.  `editMsg` edits the existing chat
message in place to a plain text (no keyboard attached); `editMenu`
edits it to a text plus an inline keyboard of action-token buttons;
`replyMsg` sends a new message. -/
inductive Effect where
  | radarrGet (endpoint : String)
  | sonarrGet (endpoint : String)
  | radarrPostMovie (payload : MovieAddPayload)
  | sonarrPostSeries (payload : SeriesAddPayload)
  | editMsg (text : String)
  | editMenu (text : String) (keyboard : List Button)
  | replyMsg (text : String)
  deriving Repr, DecidableEq

/-- Python exceptions that can escape a handler before its `try`
block: `int()` on a non-numeric string, or tuple unpacking of a
`split` result with the wrong number of parts. -/
inductive PyErr where
  | intValueError (s : String)
  | unpackError (parts : Nat)
  deriving Repr, DecidableEq

/-- Result of one handler invocation: either the handler ran to
completion with the given effect trace, or a Python exception escaped
it uncaught (with the effects performed before the raise). -/
inductive Outcome where
  | done (effects : List Effect)
  | raised (err : PyErr) (effects : List Effect)
  deriving Repr, DecidableEq

/-- Radarr backend behaviour for one interaction: the response of
each endpoint the movie flow consults.  `Except.error e` models the
wrapper raising an exception whose `str` is `e`. -/
structure RadarrEnv where
  movieLookup : String → Except String (List MovieResult)
  qualityProfiles : Except String (List QualityProfile)
  rootFolders : Except String (List RootFolder)
  addMovie : MovieAddPayload → Except String MovieResult

/-- Sonarr backend behaviour for one interaction. -/
structure SonarrEnv where
  seriesLookup : String → Except String (List SeriesResult)
  qualityProfiles : Except String (List QualityProfile)
  rootFolders : Except String (List RootFolder)
  addSeries : SeriesAddPayload → Except String SeriesResult

/-! ## Result renderer (`search_command`, `search_series_command`) -/

/-- The button built for one kept movie lookup result
(`search_command`, loop body): label
`"<title> (<year>) - <marker>"`, token `"add_movie|added"` when the
backend already has the movie (internal id nonzero), otherwise
`"select_quality|<tmdbId>"`. -/
def mkMovieButton (movie : MovieResult) : Button :=
  let is_added := movie.movieId != 0
  let button_text := if is_added then "✅ 已添加" else "➕ 添加"
  let cb := if is_added then "add_movie|added"
            else "select_quality|" ++ toString movie.tmdbId
  { text := movie.title ++ " (" ++ toString movie.year ++ ") - " ++ button_text,
    callback_data := cb }

/-- The movie keyboard of `search_command`: the loop runs over
`search_results[:5]` and skips entries whose `tmdbId` is the unknown
sentinel 0 — truncation happens BEFORE the sentinel filter. -/
def movieKeyboard (results : List MovieResult) : List Button :=
  (results.take 5).filterMap fun movie =>
    if movie.tmdbId == 0 then none else some (mkMovieButton movie)

/-- The button built for one kept series lookup result
(`search_series_command`, loop body): token `"add_series|added"` when
already present, otherwise `"add_series|<tvdbId>"`. -/
def mkSeriesButton (series : SeriesResult) : Button :=
  let is_added := series.seriesId != 0
  let button_text := if is_added then "✅ 已添加" else "➕ 添加"
  let cb := if is_added then "add_series|added"
            else "add_series|" ++ toString series.tvdbId
  { text := series.title ++ " (" ++ toString series.year ++ ") - " ++ button_text,
    callback_data := cb }

/-- The series keyboard of `search_series_command`: same
truncate-then-filter shape as the movie keyboard. -/
def seriesKeyboard (results : List SeriesResult) : List Button :=
  (results.take 5).filterMap fun series =>
    if series.tvdbId == 0 then none else some (mkSeriesButton series)

/-- The movie keyboard as the spec describes it: first drop sentinel
entries, then truncate to the first 5 of what remains.  Stated only
to be compared with `movieKeyboard`, which follows the code. -/
def movieKeyboardSpecOrder (results : List MovieResult) : List Button :=
  ((results.filter fun movie => !(movie.tmdbId == 0)).take 5).map mkMovieButton

/-- `search_command`: with no arguments, reply with the usage hint and
stop; otherwise announce the search, call `movie/lookup`, and render
the result menu (or the relevant empty-result message).  A caught
exception edits the message to the search-failure text. -/
def search_command (env : RadarrEnv) (args : List String) : List Effect :=
  if args.isEmpty then
    [.replyMsg "用法: /search <电影名称>"]
  else
    let query := String.intercalate " " args
    .replyMsg ("正在为“" ++ query ++ "”在 Radarr 中查找电影...") ::
    .radarrGet "movie/lookup" ::
    match env.movieLookup query with
    | .error e => [.editMsg ("❌ 搜索失败: " ++ e)]
    | .ok search_results =>
      if search_results.isEmpty then
        [.editMsg ("🤷‍♂️ 未找到与“" ++ query ++ "”相关的电影。")]
      else
        let keyboard := movieKeyboard search_results
        if keyboard.isEmpty then
          [.editMsg ("🤷‍♂️ 未找到与“" ++ query ++ "”相关的有效结果。")]
        else
          [.editMenu ("🔎 “" ++ query ++ "”的电影搜索结果:\n") keyboard]

/-- `search_series_command`: same shape as `search_command`, against
Sonarr. -/
def search_series_command (env : SonarrEnv) (args : List String) : List Effect :=
  if args.isEmpty then
    [.replyMsg "用法: /series <剧集名称>"]
  else
    let query := String.intercalate " " args
    .replyMsg ("正在为“" ++ query ++ "”在 Sonarr 中查找剧集...") ::
    .sonarrGet "series/lookup" ::
    match env.seriesLookup query with
    | .error e => [.editMsg ("❌ 搜索失败: " ++ e)]
    | .ok search_results =>
      if search_results.isEmpty then
        [.editMsg ("🤷‍♂️ 未找到与“" ++ query ++ "”相关的剧集。")]
      else
        let keyboard := seriesKeyboard search_results
        if keyboard.isEmpty then
          [.editMsg ("🤷‍♂️ 未找到与“" ++ query ++ "”相关的有效结果。")]
        else
          [.editMenu ("🔎 “" ++ query ++ "”的剧集搜索结果:\n") keyboard]

/-! ## Callback handlers (workflow orchestrator) -/

/-- `add_movie_button_handler`: splits the token; on the exact data
`"add_movie|added"` it edits the message to the already-in-library
confirmation; any other two-part token falls through the `if` and the
handler returns having done nothing. -/
def add_movie_button_handler (data : String) : Outcome :=
  match pySplit data '|' with
  | [_action, status_or_tmdb_id] =>
    if status_or_tmdb_id == "added" then
      .done [.editMsg "✅ 这部电影已经在你的媒体库中了。"]
    else
      .done []
  | parts => .raised (.unpackError parts.length) []

/-- Body of `select_quality_profile_handler` after the (unguarded)
token parse: fetch `qualityprofile`; on an empty list edit to the
configuration-error text; otherwise render one button per profile
with token `"add_movie_with_quality|<tmdbId>|<profileId>"`.  A caught
exception edits the message to the fetch-failure text. -/
def select_quality_core (env : RadarrEnv) (tmdb_id : Int) : List Effect :=
  .radarrGet "qualityprofile" ::
  match env.qualityProfiles with
  | .error e => [.editMsg ("❌ 获取质量配置失败: " ++ e)]
  | .ok quality_profiles =>
    if quality_profiles.isEmpty then
      [.editMsg "❌ 无法获取 Radarr 质量配置。"]
    else
      let keyboard := quality_profiles.map fun profile =>
        { text := profile.name,
          callback_data :=
            "add_movie_with_quality|" ++ toString tmdb_id ++ "|" ++
              toString profile.id : Button }
      [.editMenu ("请选择电影的质量配置 (TMDB ID: " ++ toString tmdb_id ++ "):")
        keyboard]

/-- `select_quality_profile_handler`: unpack the token into two parts
and apply `int()` to the second — both OUTSIDE the `try` block, so a
failure escapes the handler uncaught, before any backend call. -/
def select_quality_profile_handler (env : RadarrEnv) (data : String) : Outcome :=
  match pySplit data '|' with
  | [_action, tmdb_id_str] =>
    match pyInt? tmdb_id_str with
    | none => .raised (.intValueError tmdb_id_str) []
    | some tmdb_id => .done (select_quality_core env tmdb_id)
  | parts => .raised (.unpackError parts.length) []

/-- The add payload built by `add_movie_with_quality_handler` from
the first re-resolved lookup result, the token's profile id and the
first root folder's path; `addOptions.searchForMovie` is `True`. -/
def movieAddPayload (movie_to_add : MovieResult) (quality_profile_id : Int)
    (root_folder_path : String) : MovieAddPayload :=
  { title := movie_to_add.title,
    tmdbId := movie_to_add.tmdbId,
    year := movie_to_add.year,
    qualityProfileId := quality_profile_id,
    rootFolderPath := root_folder_path,
    images := movie_to_add.images,
    searchForMovie := true }

/-- The `except` block of `add_movie_with_quality_handler`: when the
exception text contains `"already been added"` the message is edited
in place to the already-in-library confirmation; otherwise a NEW
reply message carries the failure text. -/
def movieExceptEffect (e : String) : Effect :=
  if pyIn "already been added" e then
    .editMsg "✅ 这部电影已经在你的媒体库中了。"
  else
    .replyMsg ("❌ 添加电影时发生错误: " ++ e)

/-- Body of `add_movie_with_quality_handler` after the (unguarded)
token parse: re-resolve the movie via `movie/lookup term=tmdb:<id>`
(empty result → details-not-found message), fetch `rootfolder`
(empty → configuration message), build the payload from the first
entries and POST it; success edits to the added confirmation, a
caught exception ends with `movieExceptEffect`. -/
def add_movie_with_quality_core (env : RadarrEnv) (tmdb_id : Int)
    (quality_profile_id : Int) : List Effect :=
  .radarrGet "movie/lookup" ::
  match env.movieLookup ("tmdb:" ++ toString tmdb_id) with
  | .error e => [movieExceptEffect e]
  | .ok [] => [.editMsg "❌ 找不到该电影的详细信息。"]
  | .ok (movie_to_add :: _) =>
    .radarrGet "rootfolder" ::
    match env.rootFolders with
    | .error e => [movieExceptEffect e]
    | .ok [] => [.editMsg "❌ Radarr 未配置根目录。"]
    | .ok (root_folder :: _) =>
      let payload := movieAddPayload movie_to_add quality_profile_id root_folder.path
      .radarrPostMovie payload ::
      match env.addMovie payload with
      | .error e => [movieExceptEffect e]
      | .ok added_movie =>
        [.editMsg ("✅ <b>" ++ added_movie.title ++ "</b> 已成功添加到 Radarr 并开始搜索！")]

/-- `add_movie_with_quality_handler`: unpack the token into three
parts and apply `int()` to the second and third — all OUTSIDE the
`try` block, so a failure escapes the handler uncaught, before any
backend call. -/
def add_movie_with_quality_handler (env : RadarrEnv) (data : String) : Outcome :=
  match pySplit data '|' with
  | [_action, tmdb_id_str, quality_profile_id_str] =>
    match pyInt? tmdb_id_str with
    | none => .raised (.intValueError tmdb_id_str) []
    | some tmdb_id =>
      match pyInt? quality_profile_id_str with
      | none => .raised (.intValueError quality_profile_id_str) []
      | some quality_profile_id =>
        .done (add_movie_with_quality_core env tmdb_id quality_profile_id)
  | parts => .raised (.unpackError parts.length) []

/-- The add payload built by `add_series_button_handler` from the
first re-resolved lookup result, the FIRST quality profile's id and
the first root folder's path; seasons are passed through and
`addOptions` is
`ignoreEpisodesWithFiles=False, ignoreEpisodesWithoutFiles=False,
searchForMissingEpisodes=True`. -/
def seriesAddPayload (series_to_add : SeriesResult) (quality_profile_id : Int)
    (root_folder_path : String) : SeriesAddPayload :=
  { title := series_to_add.title,
    tvdbId := series_to_add.tvdbId,
    year := series_to_add.year,
    qualityProfileId := quality_profile_id,
    rootFolderPath := root_folder_path,
    images := series_to_add.images,
    seasons := series_to_add.seasons,
    ignoreEpisodesWithFiles := false,
    ignoreEpisodesWithoutFiles := false,
    searchForMissingEpisodes := true }

/-- The `except` block of `add_series_button_handler`: duplicate-add
pattern → edit in place to the already-in-library confirmation,
otherwise a NEW reply message with the failure text. -/
def seriesExceptEffect (e : String) : Effect :=
  if pyIn "already been added" e then
    .editMsg "✅ 这部剧集已经在你的媒体库中了。"
  else
    .replyMsg ("❌ 添加剧集时发生错误: " ++ e)

/-- Body of `add_series_button_handler` after the `"added"` test and
the (unguarded) `int()`: re-resolve via `series/lookup term=tvdb:<id>`
(empty → details-not-found), fetch `qualityprofile` then `rootfolder`
(either empty → one combined configuration message), build the payload
from the first entries and POST it. -/
def add_series_core (env : SonarrEnv) (tvdb_id : Int) : List Effect :=
  .sonarrGet "series/lookup" ::
  match env.seriesLookup ("tvdb:" ++ toString tvdb_id) with
  | .error e => [seriesExceptEffect e]
  | .ok [] => [.editMsg "❌ 找不到该剧集的详细信息。"]
  | .ok (series_to_add :: _) =>
    .sonarrGet "qualityprofile" ::
    match env.qualityProfiles with
    | .error e => [seriesExceptEffect e]
    | .ok quality_profiles =>
      .sonarrGet "rootfolder" ::
      match env.rootFolders with
      | .error e => [seriesExceptEffect e]
      | .ok root_folders =>
        match quality_profiles, root_folders with
        | first_profile :: _, root_folder :: _ =>
          let payload := seriesAddPayload series_to_add first_profile.id root_folder.path
          .sonarrPostSeries payload ::
          match env.addSeries payload with
          | .error e => [seriesExceptEffect e]
          | .ok added_series =>
            [.editMsg ("✅ <b>" ++ added_series.title ++ "</b> 已成功添加到 Sonarr 并开始搜索！")]
        | _, _ => [.editMsg "❌ Sonarr 未配置质量或根目录。"]

/-- `add_series_button_handler`: two-part unpack, then the literal
`"added"` short-circuit (edit in place, no backend call), then the
unguarded `int()` whose failure escapes the handler. -/
def add_series_button_handler (env : SonarrEnv) (data : String) : Outcome :=
  match pySplit data '|' with
  | [_action, tvdb_id_str] =>
    if tvdb_id_str == "added" then
      .done [.editMsg "✅ 这部剧集已经在你的媒体库中了。"]
    else
      match pyInt? tvdb_id_str with
      | none => .raised (.intValueError tvdb_id_str) []
      | some tvdb_id => .done (add_series_core env tvdb_id)
  | parts => .raised (.unpackError parts.length) []

/-! ## Backend client error messages (`radarr_api_get/post`,
`sonarr_api_get/post`) -/

/-- First element of a decoded JSON error body, as the POST wrappers
inspect it: a JSON object (with its optional `errorMessage` field) or
some other JSON value, on which `.get` raises `AttributeError`. -/
inductive ErrElem where
  | obj (errorMessage : Option String)
  | nonObj
  deriving Repr, DecidableEq

/-- A decoded JSON error-response body: a JSON list, or any non-list
JSON value (which fails the `isinstance(error_details, list)` test). -/
inductive ErrBody where
  | jsonList (elems : List ErrElem)
  | nonListJson
  deriving Repr, DecidableEq

/-- Python f-string rendering of a `.get` result: `None` prints as
the literal text `"None"`. -/
def pyStrOfOpt : Option String → String
  | some s => s
  | none => "None"

/-- The message part the POST wrappers extract from a failure: `raw`
is `str(e)` of the transport exception, `body` the decoded JSON of
`e.response` (`none` when there is no response or it does not decode).
A non-empty JSON list whose first element is an object yields that
element's `errorMessage` (rendered Python-style); every other shape —
no body, non-list JSON, empty list, or a first element on which
`.get` raises `AttributeError` — falls back to `raw`. -/
def postErrDetail (raw : String) (body : Option ErrBody) : String :=
  match body with
  | none => raw
  | some .nonListJson => raw
  | some (.jsonList []) => raw
  | some (.jsonList (first :: _)) =>
    match first with
    | .obj m => pyStrOfOpt m
    | .nonObj => raw

/-- `str` of the exception raised by `radarr_api_post` on a failed
call. -/
def radarr_api_post_errmsg (raw : String) (body : Option ErrBody) : String :=
  "Radarr API 错误: " ++ postErrDetail raw body

/-- `str` of the exception raised by `sonarr_api_post` on a failed
call. -/
def sonarr_api_post_errmsg (raw : String) (body : Option ErrBody) : String :=
  "Sonarr API 错误: " ++ postErrDetail raw body

/-- `str` of the exception surfaced by `radarr_api_get` on a failed
call: the wrapper logs and RE-RAISES the original
`requests.exceptions.RequestException`, so the response body is never
inspected and the surfaced text is the raw transport text. -/
def radarr_api_get_errmsg (raw : String) (_body : Option ErrBody) : String :=
  raw

/-- `str` of the exception surfaced by `sonarr_api_get` on a failed
call: re-raised unchanged, like `radarr_api_get`. -/
def sonarr_api_get_errmsg (raw : String) (_body : Option ErrBody) : String :=
  raw

/-- The error message as the spec's words describe the Backend Client
contract: the first element's message field when the body is a list
of error objects, else the raw transport error text.  Stated only to
be compared with the wrappers' actual messages. -/
def specExtractedMsg (raw : String) (body : Option ErrBody) : String :=
  match body with
  | some (.jsonList (.obj (some m) :: _)) => m
  | _ => raw

/-! ## Concrete fixtures used by witnesses and counterexamples -/

/-- A movie lookup result with the given tmdb id (not yet added). -/
def mv (tm : Nat) : MovieResult :=
  { title := "t", year := 2000, tmdbId := tm, movieId := 0, images := "imgs" }

/-- A series lookup result with the given tvdb id (not yet added). -/
def sv (tv : Nat) : SeriesResult :=
  { title := "t", year := 2000, tvdbId := tv, seriesId := 0,
    images := "imgs", seasons := "seasons" }

/-- Six lookup results whose first carries the sentinel id 0: inside
the truncation window, with a sixth valid result beyond it. -/
def cxMovies : List MovieResult :=
  [mv 0, mv 1, mv 2, mv 3, mv 4, mv 5]

/-- An inert backend environment: lookups and listings answer with
empty lists, the add call is never consulted.  Used where a claim's
behaviour must not depend on the backend at all. -/
def env0 : RadarrEnv :=
  { movieLookup := fun _ => .ok [],
    qualityProfiles := .ok [],
    rootFolders := .ok [],
    addMovie := fun _ => .error "unreachable" }

/-- A Radarr environment whose quality-profile listing has exactly
one profile, HD-1080p with id 4. -/
def envOneProfile : RadarrEnv :=
  { movieLookup := fun _ => .ok [],
    qualityProfiles := .ok [{ id := 4, name := "HD-1080p" }],
    rootFolders := .ok [],
    addMovie := fun _ => .error "unreachable" }

/-- A fixed movie lookup result (Inception's tmdb id). -/
def mEx : MovieResult := mv 27205

/-- A fixed series lookup result. -/
def sEx : SeriesResult := sv 81189

/-- A fixed Radarr root folder. -/
def rfEx : RootFolder := { path := "/movies" }

/-- The duplicate-add failure text of a Radarr POST, as wrapped by
`radarr_api_post`. -/
def dupMsgM : String := "Radarr API 错误: This movie has already been added"

/-- The duplicate-add failure text of a Sonarr POST, as wrapped by
`sonarr_api_post`. -/
def dupMsgS : String := "Sonarr API 错误: This series has already been added"

/-- Radarr backend where the re-resolution and root folder succeed
but the add call fails with the duplicate-add message. -/
def envDupM : RadarrEnv :=
  { movieLookup := fun _ => .ok [mEx],
    qualityProfiles := .ok [],
    rootFolders := .ok [rfEx],
    addMovie := fun _ => .error dupMsgM }

/-- Radarr backend where the add call fails with an arbitrary
non-duplicate message. -/
def envFailM : RadarrEnv :=
  { movieLookup := fun _ => .ok [mEx],
    qualityProfiles := .ok [],
    rootFolders := .ok [rfEx],
    addMovie := fun _ => .error "boom" }

/-- Radarr backend where the re-resolution succeeds but no root
folder is configured. -/
def envNoRootM : RadarrEnv :=
  { movieLookup := fun _ => .ok [mEx],
    qualityProfiles := .ok [],
    rootFolders := .ok [],
    addMovie := fun _ => .error "unreachable" }

/-- An inert Sonarr environment: all listings answer empty. -/
def envS0 : SonarrEnv :=
  { seriesLookup := fun _ => .ok [],
    qualityProfiles := .ok [],
    rootFolders := .ok [],
    addSeries := fun _ => .error "unreachable" }

/-- Sonarr backend where everything succeeds except the add call,
which fails with the duplicate-add message. -/
def envDupS : SonarrEnv :=
  { seriesLookup := fun _ => .ok [sEx],
    qualityProfiles := .ok [{ id := 1, name := "Any" }],
    rootFolders := .ok [{ path := "/tv" }],
    addSeries := fun _ => .error dupMsgS }

/-- Sonarr backend with a series to add but an empty quality-profile
listing. -/
def envNoProfileS : SonarrEnv :=
  { seriesLookup := fun _ => .ok [sEx],
    qualityProfiles := .ok [],
    rootFolders := .ok [{ path := "/tv" }],
    addSeries := fun _ => .error "unreachable" }

/-- Last element of an effect trace: the finally-visible message. -/
def lastEffect : List Effect → Option Effect
  | [] => none
  | [eff] => some eff
  | _ :: t => lastEffect t

/-- Is the trace's final effect an in-place edit to a plain text? -/
def lastIsEdit (effects : List Effect) : Bool :=
  match lastEffect effects with
  | some (.editMsg _) => true
  | _ => false

/-- Does the outcome show an error that was caught inside the handler
and rendered as a user-visible message (rather than escaping the
handler)? -/
def isCaughtAndRendered : Outcome → Bool
  | .done effects => effects.any fun eff =>
      match eff with
      | .editMsg _ => true
      | .replyMsg _ => true
      | _ => false
  | .raised _ _ => false

/-- Is the effect a backend add (POST) call? -/
def isAddCall : Effect → Bool
  | .radarrPostMovie _ => true
  | .sonarrPostSeries _ => true
  | _ => false

/-! ## General list lemma shared by the renderer claims -/

/-- A `filterMap` whose function is an if-then-skip is a `filter`
followed by a `map`. -/
theorem filterMap_skip_eq {α β : Type} (p : α → Bool) (g : α → β) :
    ∀ l : List α,
      (l.filterMap fun a => if p a then none else some (g a)) =
        (l.filter fun a => !p a).map g := by
  intro l
  induction l with
  | nil => rfl
  | cons a t ih =>
    cases hpa : p a <;>
      simp [List.filterMap_cons, List.filter_cons, hpa, ih]

/-! ## Claims -/

/-- C3 counterexample: on a result list whose first entry has the
sentinel id 0 and which has six entries in total, the code's keyboard
(truncate to 5, then drop sentinels: 4 buttons) differs from the
spec's order (drop sentinels, then truncate: 5 buttons). -/
theorem C3_cx :
    movieKeyboard cxMovies ≠ movieKeyboardSpecOrder cxMovies := by
  decide

/-- C3 (amended): the rendered menu entries are exactly the
sentinel-filtered entries of the FIRST-5-TRUNCATED result list (the
code truncates before filtering), order preserved; likewise for the
series renderer. -/
theorem C3_truncate_then_filter :
    (∀ results : List MovieResult,
      movieKeyboard results =
        ((results.take 5).filter fun movie => !(movie.tmdbId == 0)).map
          mkMovieButton) ∧
    (∀ results : List SeriesResult,
      seriesKeyboard results =
        ((results.take 5).filter fun series => !(series.tvdbId == 0)).map
          mkSeriesButton) := by
  constructor
  · intro results
    exact filterMap_skip_eq (fun movie => movie.tmdbId == 0) mkMovieButton
      (results.take 5)
  · intro results
    exact filterMap_skip_eq (fun series => series.tvdbId == 0) mkSeriesButton
      (results.take 5)

/-- C4: every rendered menu (movie or series search) has at most 5
button entries, and each entry is the button of a kept result whose
catalog identifier is not the unknown sentinel 0. -/
theorem C4_menu_bound_and_no_sentinel :
    (∀ results : List MovieResult,
      (movieKeyboard results).length ≤ 5 ∧
      ∃ kept : List MovieResult,
        movieKeyboard results = kept.map mkMovieButton ∧
        ∀ movie ∈ kept, movie.tmdbId ≠ 0) ∧
    (∀ results : List SeriesResult,
      (seriesKeyboard results).length ≤ 5 ∧
      ∃ kept : List SeriesResult,
        seriesKeyboard results = kept.map mkSeriesButton ∧
        ∀ series ∈ kept, series.tvdbId ≠ 0) := by
  constructor
  · intro results
    have hk := filterMap_skip_eq (fun movie => movie.tmdbId == 0) mkMovieButton
      (results.take 5)
    constructor
    · calc (movieKeyboard results).length
          = ((results.take 5).filter fun movie => !(movie.tmdbId == 0)).length := by
            rw [show movieKeyboard results =
              ((results.take 5).filter fun movie => !(movie.tmdbId == 0)).map
                mkMovieButton from hk, List.length_map]
        _ ≤ (results.take 5).length := List.length_filter_le _ _
        _ ≤ 5 := List.length_take_le _ _
    · refine ⟨(results.take 5).filter fun movie => !(movie.tmdbId == 0), hk, ?_⟩
      intro movie hm
      have := (List.mem_filter.mp hm).2
      simpa using this
  · intro results
    have hk := filterMap_skip_eq (fun series => series.tvdbId == 0) mkSeriesButton
      (results.take 5)
    constructor
    · calc (seriesKeyboard results).length
          = ((results.take 5).filter fun series => !(series.tvdbId == 0)).length := by
            rw [show seriesKeyboard results =
              ((results.take 5).filter fun series => !(series.tvdbId == 0)).map
                mkSeriesButton from hk, List.length_map]
        _ ≤ (results.take 5).length := List.length_filter_le _ _
        _ ≤ 5 := List.length_take_le _ _
    · refine ⟨(results.take 5).filter fun series => !(series.tvdbId == 0), hk, ?_⟩
      intro series hs
      have := (List.mem_filter.mp hs).2
      simpa using this

/-- C10: `/search` and `/series` invoked with no argument text reply
with the usage hint only — in particular no backend lookup call is
performed. -/
theorem C10_no_args_usage_hint :
    ∀ (envR : RadarrEnv) (envS : SonarrEnv),
      search_command envR [] = [.replyMsg "用法: /search <电影名称>"] ∧
      search_series_command envS [] = [.replyMsg "用法: /series <剧集名称>"] :=
  fun _ _ => ⟨rfl, rfl⟩

/-- C1 counterexample: on the token `select_quality|x` the `int()`
failure is NOT caught inside the handler and no user-visible message
is rendered — the `ValueError` escapes the handler (it is raised
before the `try` block), contrary to the claimed propagation policy. -/
theorem C1_cx :
    select_quality_profile_handler env0 "select_quality|x" =
      .raised (.intValueError "x") [] ∧
    isCaughtAndRendered
      (select_quality_profile_handler env0 "select_quality|x") = false :=
  ⟨rfl, rfl⟩

/-- C1 (amended): a callback token whose numeric argument does not
parse as an integer makes the unguarded `int()` raise before any
backend call — so no backend call is ever issued and no message is
rendered, but the error escapes the handler uncaught instead of being
caught and rendered at the interaction boundary. -/
theorem C1_parse_failure_uncaught :
    (∀ (env : RadarrEnv) (data a s : String),
      pySplit data '|' = [a, s] → pyInt? s = none →
      select_quality_profile_handler env data = .raised (.intValueError s) []) ∧
    (∀ (env : RadarrEnv) (data a s1 s2 : String),
      pySplit data '|' = [a, s1, s2] → pyInt? s1 = none →
      add_movie_with_quality_handler env data = .raised (.intValueError s1) []) ∧
    (∀ (env : RadarrEnv) (data a s1 s2 : String) (n : Int),
      pySplit data '|' = [a, s1, s2] → pyInt? s1 = some n → pyInt? s2 = none →
      add_movie_with_quality_handler env data = .raised (.intValueError s2) []) := by
  refine ⟨?_, ?_, ?_⟩
  · intro env data a s h1 h2
    simp [select_quality_profile_handler, h1, h2]
  · intro env data a s1 s2 h1 h2
    simp [add_movie_with_quality_handler, h1, h2]
  · intro env data a s1 s2 n h1 h2 h3
    simp [add_movie_with_quality_handler, h1, h2, h3]

/-- C1 witness: concrete malformed tokens `select_quality|x` and
`add_movie_with_quality|a|b`, with both hypotheses evaluated. -/
theorem C1_wit :
    pySplit "select_quality|x" '|' = ["select_quality", "x"] ∧
    pyInt? "x" = none ∧
    select_quality_profile_handler env0 "select_quality|x" =
      .raised (.intValueError "x") [] ∧
    add_movie_with_quality_handler env0 "add_movie_with_quality|a|b" =
      .raised (.intValueError "a") [] :=
  ⟨rfl, rfl,
   C1_parse_failure_uncaught.1 env0 "select_quality|x" "select_quality" "x"
     rfl rfl,
   C1_parse_failure_uncaught.2.1 env0 "add_movie_with_quality|a|b"
     "add_movie_with_quality" "a" "b" rfl rfl⟩

/-- C5 counterexample: with one profile (id 4) and catalog id 27205
the rendered button token is `add_movie_with_quality|27205|4` — not
the claimed `add_with_quality|27205|4`. -/
theorem C5_cx :
    select_quality_core envOneProfile 27205 =
      [.radarrGet "qualityprofile",
       .editMenu "请选择电影的质量配置 (TMDB ID: 27205):"
         [{ text := "HD-1080p",
            callback_data := "add_movie_with_quality|27205|4" }]] ∧
    "add_movie_with_quality|27205|4" ≠ "add_with_quality|27205|4" :=
  ⟨rfl, by decide⟩

/-- C5 (amended): an empty quality-profile listing terminates the
`select_quality` interaction with the configuration-error message; a
non-empty listing renders exactly one button per profile with token
`add_movie_with_quality|<catalog id>|<profile id>`; and in no case
does the interaction issue an add (POST) call. -/
theorem C5_quality_menu :
    ∀ (env : RadarrEnv) (tmdb_id : Int),
      (env.qualityProfiles = .ok [] →
        select_quality_core env tmdb_id =
          [.radarrGet "qualityprofile", .editMsg "❌ 无法获取 Radarr 质量配置。"]) ∧
      (∀ (p : QualityProfile) (ps : List QualityProfile),
        env.qualityProfiles = .ok (p :: ps) →
        select_quality_core env tmdb_id =
          [.radarrGet "qualityprofile",
           .editMenu ("请选择电影的质量配置 (TMDB ID: " ++ toString tmdb_id ++ "):")
             ((p :: ps).map fun profile =>
               { text := profile.name,
                 callback_data := "add_movie_with_quality|" ++ toString tmdb_id ++
                   "|" ++ toString profile.id })]) ∧
      (∀ eff ∈ select_quality_core env tmdb_id, isAddCall eff = false) := by
  intro env tmdb_id
  refine ⟨?_, ?_, ?_⟩
  · intro h
    simp [select_quality_core, h]
  · intro p ps h
    simp [select_quality_core, h]
  · cases hq : env.qualityProfiles with
    | error e => simp [select_quality_core, hq, isAddCall]
    | ok qps =>
      cases qps with
      | nil => simp [select_quality_core, hq, isAddCall]
      | cons p ps =>
        intro eff he
        simp [select_quality_core, hq] at he
        rcases he with rfl | rfl <;> rfl

/-- C5 witness: the one-profile environment, hypotheses evaluated. -/
theorem C5_wit :
    select_quality_core envOneProfile 27205 =
      [.radarrGet "qualityprofile",
       .editMenu "请选择电影的质量配置 (TMDB ID: 27205):"
         [{ text := "HD-1080p",
            callback_data := "add_movie_with_quality|27205|4" }]] :=
  (C5_quality_menu envOneProfile 27205).2.1 { id := 4, name := "HD-1080p" } [] rfl

/-- C8 counterexample: a failed GET whose response body IS a JSON
list of error objects still surfaces only the raw transport text —
the GET wrappers re-raise without extracting the body's message, so
an error of a GET call does not carry the extracted message. -/
theorem C8_cx :
    radarr_api_get_errmsg "connection refused"
        (some (.jsonList [.obj (some "boom")])) = "connection refused" ∧
    specExtractedMsg "connection refused"
        (some (.jsonList [.obj (some "boom")])) = "boom" ∧
    pyIn "boom"
        (radarr_api_get_errmsg "connection refused"
          (some (.jsonList [.obj (some "boom")]))) = false :=
  ⟨rfl, rfl, by decide⟩

/-- C8 (amended): on a failed POST the wrapper raises an error whose
message is the `"... API 错误: "` indicator followed by the first
element's `errorMessage` when the decoded body is a non-empty JSON
list of objects, else the raw transport error text; a failed GET
re-raises the raw transport error unchanged, with no body
extraction. -/
theorem C8_wrapper_errmsg :
    (∀ (raw m : String) (rest : List ErrElem),
      radarr_api_post_errmsg raw (some (.jsonList (.obj (some m) :: rest))) =
        "Radarr API 错误: " ++ m ∧
      sonarr_api_post_errmsg raw (some (.jsonList (.obj (some m) :: rest))) =
        "Sonarr API 错误: " ++ m) ∧
    (∀ raw : String,
      radarr_api_post_errmsg raw none = "Radarr API 错误: " ++ raw ∧
      radarr_api_post_errmsg raw (some .nonListJson) = "Radarr API 错误: " ++ raw ∧
      radarr_api_post_errmsg raw (some (.jsonList [])) = "Radarr API 错误: " ++ raw ∧
      sonarr_api_post_errmsg raw none = "Sonarr API 错误: " ++ raw ∧
      sonarr_api_post_errmsg raw (some .nonListJson) = "Sonarr API 错误: " ++ raw ∧
      sonarr_api_post_errmsg raw (some (.jsonList [])) = "Sonarr API 错误: " ++ raw) ∧
    (∀ (raw : String) (body : Option ErrBody),
      radarr_api_get_errmsg raw body = raw ∧
      sonarr_api_get_errmsg raw body = raw) :=
  ⟨fun _ _ _ => ⟨rfl, rfl⟩,
   fun _ => ⟨rfl, rfl, rfl, rfl, rfl, rfl⟩,
   fun _ _ => ⟨rfl, rfl⟩⟩

/-- The `except` effect of the movie add flow, split by whether the
error text contains the duplicate-add pattern. -/
theorem movieExceptEffect_cases (e : String) :
    (movieExceptEffect e = .editMsg "✅ 这部电影已经在你的媒体库中了。" ∧
      pyIn "already been added" e = true) ∨
    (movieExceptEffect e = .replyMsg ("❌ 添加电影时发生错误: " ++ e) ∧
      pyIn "already been added" e = false) := by
  cases h : pyIn "already been added" e
  · exact Or.inr ⟨by simp [movieExceptEffect, h], rfl⟩
  · exact Or.inl ⟨by simp [movieExceptEffect, h], rfl⟩

/-- The `except` effect of the series add flow, split by whether the
error text contains the duplicate-add pattern. -/
theorem seriesExceptEffect_cases (e : String) :
    (seriesExceptEffect e = .editMsg "✅ 这部剧集已经在你的媒体库中了。" ∧
      pyIn "already been added" e = true) ∨
    (seriesExceptEffect e = .replyMsg ("❌ 添加剧集时发生错误: " ++ e) ∧
      pyIn "already been added" e = false) := by
  cases h : pyIn "already been added" e
  · exact Or.inr ⟨by simp [seriesExceptEffect, h], rfl⟩
  · exact Or.inl ⟨by simp [seriesExceptEffect, h], rfl⟩

/-- C2: when a terminal add call fails, the duplicate-add pattern in
the upstream error text makes the final outcome the already-in-library
success message; any other failure text yields a failure message
echoing the upstream error text.  Stated for both the movie
add-with-quality transition and the series add transition. -/
theorem C2_duplicate_add_reinterpreted :
    (∀ (env : RadarrEnv) (tmdb_id quality_profile_id : Int) (m : MovieResult)
        (ms : List MovieResult) (rf : RootFolder) (rfs : List RootFolder)
        (e : String),
      env.movieLookup ("tmdb:" ++ toString tmdb_id) = .ok (m :: ms) →
      env.rootFolders = .ok (rf :: rfs) →
      env.addMovie (movieAddPayload m quality_profile_id rf.path) = .error e →
      add_movie_with_quality_core env tmdb_id quality_profile_id =
        [.radarrGet "movie/lookup", .radarrGet "rootfolder",
         .radarrPostMovie (movieAddPayload m quality_profile_id rf.path),
         movieExceptEffect e] ∧
      (pyIn "already been added" e = true →
        movieExceptEffect e = .editMsg "✅ 这部电影已经在你的媒体库中了。") ∧
      (pyIn "already been added" e = false →
        movieExceptEffect e = .replyMsg ("❌ 添加电影时发生错误: " ++ e))) ∧
    (∀ (env : SonarrEnv) (tvdb_id : Int) (s : SeriesResult)
        (ss : List SeriesResult) (qp : QualityProfile)
        (qps : List QualityProfile) (rf : RootFolder) (rfs : List RootFolder)
        (e : String),
      env.seriesLookup ("tvdb:" ++ toString tvdb_id) = .ok (s :: ss) →
      env.qualityProfiles = .ok (qp :: qps) →
      env.rootFolders = .ok (rf :: rfs) →
      env.addSeries (seriesAddPayload s qp.id rf.path) = .error e →
      add_series_core env tvdb_id =
        [.sonarrGet "series/lookup", .sonarrGet "qualityprofile",
         .sonarrGet "rootfolder",
         .sonarrPostSeries (seriesAddPayload s qp.id rf.path),
         seriesExceptEffect e] ∧
      (pyIn "already been added" e = true →
        seriesExceptEffect e = .editMsg "✅ 这部剧集已经在你的媒体库中了。") ∧
      (pyIn "already been added" e = false →
        seriesExceptEffect e = .replyMsg ("❌ 添加剧集时发生错误: " ++ e))) := by
  constructor
  · intro env tmdb_id quality_profile_id m ms rf rfs e h1 h2 h3
    refine ⟨by simp [add_movie_with_quality_core, h1, h2, h3], ?_, ?_⟩
    · intro h
      simp [movieExceptEffect, h]
    · intro h
      simp [movieExceptEffect, h]
  · intro env tvdb_id s ss qp qps rf rfs e h1 h2 h3 h4
    refine ⟨by simp [add_series_core, h1, h2, h3, h4], ?_, ?_⟩
    · intro h
      simp [seriesExceptEffect, h]
    · intro h
      simp [seriesExceptEffect, h]

/-- C2 witness: concrete duplicate-add failures for both flows end in
the already-in-library edit, with the duplicate pattern evaluated. -/
theorem C2_wit :
    pyIn "already been added" dupMsgM = true ∧
    add_movie_with_quality_core envDupM 27205 4 =
      [.radarrGet "movie/lookup", .radarrGet "rootfolder",
       .radarrPostMovie (movieAddPayload mEx 4 "/movies"),
       .editMsg "✅ 这部电影已经在你的媒体库中了。"] ∧
    add_series_core envDupS 81189 =
      [.sonarrGet "series/lookup", .sonarrGet "qualityprofile",
       .sonarrGet "rootfolder",
       .sonarrPostSeries (seriesAddPayload sEx 1 "/tv"),
       .editMsg "✅ 这部剧集已经在你的媒体库中了。"] := by
  have hm := C2_duplicate_add_reinterpreted.1 envDupM 27205 4 mEx [] rfEx []
    dupMsgM rfl rfl rfl
  have hs := C2_duplicate_add_reinterpreted.2 envDupS 81189 sEx []
    { id := 1, name := "Any" } [] { path := "/tv" } [] dupMsgS rfl rfl rfl rfl
  have hm1 := hm.1
  have hs1 := hs.1
  rw [hm.2.1 (by decide)] at hm1
  rw [hs.2.1 (by decide)] at hs1
  exact ⟨by decide, hm1, hs1⟩

/-- C6: an empty re-resolution lookup makes either terminal add
transition finish with the details-not-found message, after only the
lookup call — no add is issued and nothing escapes the handler. -/
theorem C6_vanished_item :
    (∀ (env : RadarrEnv) (tmdb_id quality_profile_id : Int),
      env.movieLookup ("tmdb:" ++ toString tmdb_id) = .ok [] →
      add_movie_with_quality_core env tmdb_id quality_profile_id =
        [.radarrGet "movie/lookup", .editMsg "❌ 找不到该电影的详细信息。"]) ∧
    (∀ (env : SonarrEnv) (tvdb_id : Int),
      env.seriesLookup ("tvdb:" ++ toString tvdb_id) = .ok [] →
      add_series_core env tvdb_id =
        [.sonarrGet "series/lookup", .editMsg "❌ 找不到该剧集的详细信息。"]) := by
  constructor
  · intro env tmdb_id quality_profile_id h
    simp [add_movie_with_quality_core, h]
  · intro env tvdb_id h
    simp [add_series_core, h]

/-- C6 witness: both add flows against backends whose lookup-by-id
answers an empty list. -/
theorem C6_wit :
    add_movie_with_quality_core env0 27205 4 =
      [.radarrGet "movie/lookup", .editMsg "❌ 找不到该电影的详细信息。"] ∧
    add_series_core envS0 81189 =
      [.sonarrGet "series/lookup", .editMsg "❌ 找不到该剧集的详细信息。"] :=
  ⟨C6_vanished_item.1 env0 27205 4 rfl, C6_vanished_item.2 envS0 81189 rfl⟩

/-- C7: both terminal add transitions use the FIRST root folder's
path as the destination and turn an absence of root folders into a
configuration-failure message with no add call; the series transition
additionally uses the FIRST quality profile's id, passes the season
metadata through, and sets the add options to consider all seasons
(both ignore flags false) plus an immediate missing-episode search. -/
theorem C7_first_entries_and_series_defaults :
    (∀ (env : RadarrEnv) (tmdb_id quality_profile_id : Int) (m : MovieResult)
        (ms : List MovieResult) (rf : RootFolder) (rfs : List RootFolder),
      env.movieLookup ("tmdb:" ++ toString tmdb_id) = .ok (m :: ms) →
      env.rootFolders = .ok (rf :: rfs) →
      ∃ msgEff,
        add_movie_with_quality_core env tmdb_id quality_profile_id =
          [.radarrGet "movie/lookup", .radarrGet "rootfolder",
           .radarrPostMovie (movieAddPayload m quality_profile_id rf.path),
           msgEff] ∧
        (movieAddPayload m quality_profile_id rf.path).rootFolderPath = rf.path ∧
        (movieAddPayload m quality_profile_id rf.path).searchForMovie = true) ∧
    (∀ (env : RadarrEnv) (tmdb_id quality_profile_id : Int) (m : MovieResult)
        (ms : List MovieResult),
      env.movieLookup ("tmdb:" ++ toString tmdb_id) = .ok (m :: ms) →
      env.rootFolders = .ok [] →
      add_movie_with_quality_core env tmdb_id quality_profile_id =
        [.radarrGet "movie/lookup", .radarrGet "rootfolder",
         .editMsg "❌ Radarr 未配置根目录。"]) ∧
    (∀ (env : SonarrEnv) (tvdb_id : Int) (s : SeriesResult)
        (ss : List SeriesResult) (qp : QualityProfile)
        (qps : List QualityProfile) (rf : RootFolder) (rfs : List RootFolder),
      env.seriesLookup ("tvdb:" ++ toString tvdb_id) = .ok (s :: ss) →
      env.qualityProfiles = .ok (qp :: qps) →
      env.rootFolders = .ok (rf :: rfs) →
      ∃ msgEff,
        add_series_core env tvdb_id =
          [.sonarrGet "series/lookup", .sonarrGet "qualityprofile",
           .sonarrGet "rootfolder",
           .sonarrPostSeries (seriesAddPayload s qp.id rf.path), msgEff] ∧
        (seriesAddPayload s qp.id rf.path).qualityProfileId = qp.id ∧
        (seriesAddPayload s qp.id rf.path).rootFolderPath = rf.path ∧
        (seriesAddPayload s qp.id rf.path).seasons = s.seasons ∧
        (seriesAddPayload s qp.id rf.path).ignoreEpisodesWithFiles = false ∧
        (seriesAddPayload s qp.id rf.path).ignoreEpisodesWithoutFiles = false ∧
        (seriesAddPayload s qp.id rf.path).searchForMissingEpisodes = true) ∧
    (∀ (env : SonarrEnv) (tvdb_id : Int) (s : SeriesResult)
        (ss : List SeriesResult) (qps : List QualityProfile)
        (rfs : List RootFolder),
      env.seriesLookup ("tvdb:" ++ toString tvdb_id) = .ok (s :: ss) →
      env.qualityProfiles = .ok qps →
      env.rootFolders = .ok rfs →
      qps = [] ∨ rfs = [] →
      add_series_core env tvdb_id =
        [.sonarrGet "series/lookup", .sonarrGet "qualityprofile",
         .sonarrGet "rootfolder", .editMsg "❌ Sonarr 未配置质量或根目录。"]) := by
  refine ⟨?_, ?_, ?_, ?_⟩
  · intro env tmdb_id quality_profile_id m ms rf rfs h1 h2
    cases ha : env.addMovie (movieAddPayload m quality_profile_id rf.path) with
    | error e =>
      exact ⟨movieExceptEffect e,
        by simp [add_movie_with_quality_core, h1, h2, ha], rfl, rfl⟩
    | ok added_movie =>
      exact ⟨.editMsg ("✅ <b>" ++ added_movie.title ++ "</b> 已成功添加到 Radarr 并开始搜索！"),
        by simp [add_movie_with_quality_core, h1, h2, ha], rfl, rfl⟩
  · intro env tmdb_id quality_profile_id m ms h1 h2
    simp [add_movie_with_quality_core, h1, h2]
  · intro env tvdb_id s ss qp qps rf rfs h1 h2 h3
    cases ha : env.addSeries (seriesAddPayload s qp.id rf.path) with
    | error e =>
      exact ⟨seriesExceptEffect e,
        by simp [add_series_core, h1, h2, h3, ha], rfl, rfl, rfl, rfl, rfl, rfl⟩
    | ok added_series =>
      exact ⟨.editMsg ("✅ <b>" ++ added_series.title ++ "</b> 已成功添加到 Sonarr 并开始搜索！"),
        by simp [add_series_core, h1, h2, h3, ha], rfl, rfl, rfl, rfl, rfl, rfl⟩
  · intro env tvdb_id s ss qps rfs h1 h2 h3 h4
    rcases h4 with rfl | rfl
    · simp [add_series_core, h1, h2, h3]
    · cases qps with
      | nil => simp [add_series_core, h1, h2, h3]
      | cons qp qps => simp [add_series_core, h1, h2, h3]

/-- C7 witness: concrete environments exercising all four parts. -/
theorem C7_wit :
    (∃ msgEff,
      add_movie_with_quality_core envDupM 27205 4 =
        [.radarrGet "movie/lookup", .radarrGet "rootfolder",
         .radarrPostMovie (movieAddPayload mEx 4 "/movies"), msgEff] ∧
      (movieAddPayload mEx 4 "/movies").rootFolderPath = "/movies" ∧
      (movieAddPayload mEx 4 "/movies").searchForMovie = true) ∧
    add_movie_with_quality_core envNoRootM 27205 4 =
      [.radarrGet "movie/lookup", .radarrGet "rootfolder",
       .editMsg "❌ Radarr 未配置根目录。"] ∧
    (∃ msgEff,
      add_series_core envDupS 81189 =
        [.sonarrGet "series/lookup", .sonarrGet "qualityprofile",
         .sonarrGet "rootfolder",
         .sonarrPostSeries (seriesAddPayload sEx 1 "/tv"), msgEff] ∧
      (seriesAddPayload sEx 1 "/tv").qualityProfileId = 1 ∧
      (seriesAddPayload sEx 1 "/tv").rootFolderPath = "/tv" ∧
      (seriesAddPayload sEx 1 "/tv").seasons = sEx.seasons ∧
      (seriesAddPayload sEx 1 "/tv").ignoreEpisodesWithFiles = false ∧
      (seriesAddPayload sEx 1 "/tv").ignoreEpisodesWithoutFiles = false ∧
      (seriesAddPayload sEx 1 "/tv").searchForMissingEpisodes = true) ∧
    add_series_core envNoProfileS 81189 =
      [.sonarrGet "series/lookup", .sonarrGet "qualityprofile",
       .sonarrGet "rootfolder", .editMsg "❌ Sonarr 未配置质量或根目录。"] :=
  ⟨C7_first_entries_and_series_defaults.1 envDupM 27205 4 mEx [] rfEx [] rfl rfl,
   C7_first_entries_and_series_defaults.2.1 envNoRootM 27205 4 mEx [] rfl rfl,
   C7_first_entries_and_series_defaults.2.2.1 envDupS 81189 sEx []
     { id := 1, name := "Any" } [] { path := "/tv" } [] rfl rfl rfl,
   C7_first_entries_and_series_defaults.2.2.2 envNoProfileS 81189 sEx [] []
     [{ path := "/tv" }] rfl rfl rfl (Or.inl rfl)⟩

/-- C9 counterexample: a terminal Failed outcome whose error text
lacks the duplicate pattern is delivered as a NEW reply message, not
by editing the existing chat message in place. -/
theorem C9_cx :
    lastEffect (add_movie_with_quality_core envFailM 27205 4) =
      some (.replyMsg "❌ 添加电影时发生错误: boom") ∧
    lastIsEdit (add_movie_with_quality_core envFailM 27205 4) = false :=
  ⟨rfl, rfl⟩

/-- C9 (amended): every terminal outcome of the add flows is a single
final plain-text message with no further action token attached; the
Added and AlreadyAdded outcomes (and the pre-add Failed checks) edit
the chat message in place, but a Failed outcome from a caught
non-duplicate exception is delivered as a new reply message echoing
the error text.  The two already-added button taps edit in place. -/
theorem C9_terminal_message_delivery :
    (∀ (env : RadarrEnv) (tmdb_id quality_profile_id : Int),
      (∃ txt,
        lastEffect (add_movie_with_quality_core env tmdb_id quality_profile_id) =
          some (.editMsg txt)) ∨
      (∃ e,
        lastEffect (add_movie_with_quality_core env tmdb_id quality_profile_id) =
          some (.replyMsg ("❌ 添加电影时发生错误: " ++ e)) ∧
        pyIn "already been added" e = false)) ∧
    (∀ (env : SonarrEnv) (tvdb_id : Int),
      (∃ txt,
        lastEffect (add_series_core env tvdb_id) = some (.editMsg txt)) ∨
      (∃ e,
        lastEffect (add_series_core env tvdb_id) =
          some (.replyMsg ("❌ 添加剧集时发生错误: " ++ e)) ∧
        pyIn "already been added" e = false)) ∧
    add_movie_button_handler "add_movie|added" =
      .done [.editMsg "✅ 这部电影已经在你的媒体库中了。"] ∧
    (∀ env : SonarrEnv,
      add_series_button_handler env "add_series|added" =
        .done [.editMsg "✅ 这部剧集已经在你的媒体库中了。"]) := by
  refine ⟨?_, ?_, rfl, fun _ => rfl⟩
  · intro env tmdb_id quality_profile_id
    cases hl : env.movieLookup ("tmdb:" ++ toString tmdb_id) with
    | error e =>
      rcases movieExceptEffect_cases e with ⟨he, _⟩ | ⟨he, hp⟩
      · exact Or.inl ⟨"✅ 这部电影已经在你的媒体库中了。",
          by simp [add_movie_with_quality_core, hl, he, lastEffect]⟩
      · exact Or.inr ⟨e,
          by simp [add_movie_with_quality_core, hl, he, lastEffect], hp⟩
    | ok results =>
      cases results with
      | nil =>
        exact Or.inl ⟨"❌ 找不到该电影的详细信息。",
          by simp [add_movie_with_quality_core, hl, lastEffect]⟩
      | cons m ms =>
        cases hr : env.rootFolders with
        | error e =>
          rcases movieExceptEffect_cases e with ⟨he, _⟩ | ⟨he, hp⟩
          · exact Or.inl ⟨"✅ 这部电影已经在你的媒体库中了。",
              by simp [add_movie_with_quality_core, hl, hr, he, lastEffect]⟩
          · exact Or.inr ⟨e,
              by simp [add_movie_with_quality_core, hl, hr, he, lastEffect], hp⟩
        | ok rfs =>
          cases rfs with
          | nil =>
            exact Or.inl ⟨"❌ Radarr 未配置根目录。",
              by simp [add_movie_with_quality_core, hl, hr, lastEffect]⟩
          | cons rfDest rest =>
            cases ha : env.addMovie (movieAddPayload m quality_profile_id rfDest.path) with
            | error e =>
              rcases movieExceptEffect_cases e with ⟨he, _⟩ | ⟨he, hp⟩
              · exact Or.inl ⟨"✅ 这部电影已经在你的媒体库中了。",
                  by simp [add_movie_with_quality_core, hl, hr, ha, he, lastEffect]⟩
              · exact Or.inr ⟨e,
                  by simp [add_movie_with_quality_core, hl, hr, ha, he, lastEffect], hp⟩
            | ok added_movie =>
              exact Or.inl
                ⟨"✅ <b>" ++ added_movie.title ++ "</b> 已成功添加到 Radarr 并开始搜索！",
                 by simp [add_movie_with_quality_core, hl, hr, ha, lastEffect]⟩
  · intro env tvdb_id
    cases hl : env.seriesLookup ("tvdb:" ++ toString tvdb_id) with
    | error e =>
      rcases seriesExceptEffect_cases e with ⟨he, _⟩ | ⟨he, hp⟩
      · exact Or.inl ⟨"✅ 这部剧集已经在你的媒体库中了。",
          by simp [add_series_core, hl, he, lastEffect]⟩
      · exact Or.inr ⟨e, by simp [add_series_core, hl, he, lastEffect], hp⟩
    | ok results =>
      cases results with
      | nil =>
        exact Or.inl ⟨"❌ 找不到该剧集的详细信息。",
          by simp [add_series_core, hl, lastEffect]⟩
      | cons s ss =>
        cases hq : env.qualityProfiles with
        | error e =>
          rcases seriesExceptEffect_cases e with ⟨he, _⟩ | ⟨he, hp⟩
          · exact Or.inl ⟨"✅ 这部剧集已经在你的媒体库中了。",
              by simp [add_series_core, hl, hq, he, lastEffect]⟩
          · exact Or.inr ⟨e, by simp [add_series_core, hl, hq, he, lastEffect], hp⟩
        | ok qps =>
          cases hr : env.rootFolders with
          | error e =>
            rcases seriesExceptEffect_cases e with ⟨he, _⟩ | ⟨he, hp⟩
            · exact Or.inl ⟨"✅ 这部剧集已经在你的媒体库中了。",
                by simp [add_series_core, hl, hq, hr, he, lastEffect]⟩
            · exact Or.inr ⟨e,
                by simp [add_series_core, hl, hq, hr, he, lastEffect], hp⟩
          | ok rfs =>
            cases qps with
            | nil =>
              exact Or.inl ⟨"❌ Sonarr 未配置质量或根目录。",
                by simp [add_series_core, hl, hq, hr, lastEffect]⟩
            | cons qp qps =>
              cases rfs with
              | nil =>
                exact Or.inl ⟨"❌ Sonarr 未配置质量或根目录。",
                  by simp [add_series_core, hl, hq, hr, lastEffect]⟩
              | cons rfDest rest =>
                cases ha : env.addSeries (seriesAddPayload s qp.id rfDest.path) with
                | error e =>
                  rcases seriesExceptEffect_cases e with ⟨he, _⟩ | ⟨he, hp⟩
                  · exact Or.inl ⟨"✅ 这部剧集已经在你的媒体库中了。",
                      by simp [add_series_core, hl, hq, hr, ha, he, lastEffect]⟩
                  · exact Or.inr ⟨e,
                      by simp [add_series_core, hl, hq, hr, ha, he, lastEffect], hp⟩
                | ok added_series =>
                  exact Or.inl
                    ⟨"✅ <b>" ++ added_series.title ++ "</b> 已成功添加到 Sonarr 并开始搜索！",
                     by simp [add_series_core, hl, hq, hr, ha, lastEffect]⟩

end MediaPilot
